import Mathlib

/- Shallow embedding of the hanteker oscilloscope driver library.

   Conventions used throughout:
   * Rust integer types (u8, u16, u32, usize) are embedded as Nat; wrap-around
     and byte extraction are written with explicit % and / on Nat.
   * Rust f32 is embedded as the inductive F32: an exact rational payload plus
     the two infinities and NaN.  Arithmetic on finite values is exact rational
     arithmetic (the idealization of f32 rounding); the special values follow
     the IEEE comparison rules (any comparison with NaN is false).  Casts
     (as u8, as u32) saturate and truncate toward zero exactly as in Rust.
   * Panics (assert failures, the builder expect-calls, slice out of range,
     Vec index out of range, usize underflow) are modeled as a distinguished
     result: Option.none for the config-level operations, OpStatus.fatal for
     driver operations, CaptureOut.panicked for the capture loop.
   * The USB transport is an oracle: a Bool telling whether a bulk write
     succeeds, a function giving the length actually returned by each bulk
     read, and a Bool-valued predicate telling which interfaces can be
     claimed. -/

/- ===================== device/cmd.rs : the 10-byte command frame ========= -/

inductive Val where
  | valU8 : Nat → Nat → Nat → Nat → Val
  | valU16 : Nat → Nat → Val
  | valU32 : Nat → Val

deriving instance DecidableEq for Val

structure HantekCommand where
  idx : Nat
  boh : Nat
  func : Nat
  cmd : Nat
  val : Val
  last : Nat

deriving instance DecidableEq for HantekCommand

/- u16::to_be_bytes: index 0 is the high byte, index 1 the low byte. -/
def u16_be_bytes (v : Nat) : List Nat := [v / 256 % 256, v % 256]

/- u16::to_le_bytes: index 0 is the low byte, index 1 the high byte. -/
def u16_le_bytes (v : Nat) : List Nat := [v % 256, v / 256 % 256]

/- u32::to_le_bytes: little-endian order. -/
def u32_le_bytes (v : Nat) : List Nat :=
  [v % 256, v / 256 % 256, v / 65536 % 256, v / 16777216 % 256]

/- Into<RawCommand> for HantekCommand: the 10-byte serialization.
   Byte 2 is func.to_be_bytes()[1] and byte 3 is func.to_be_bytes()[0]. -/
def intoRaw (c : HantekCommand) : List Nat :=
  [c.idx, c.boh, (u16_be_bytes c.func).getD 1 0, (u16_be_bytes c.func).getD 0 0, c.cmd]
    ++ (match c.val with
        | Val.valU8 v0 v1 v2 v3 => [v0, v1, v2, v3]
        | Val.valU16 w0 w1 =>
            [(u16_le_bytes w0).getD 0 0, (u16_le_bytes w0).getD 1 0,
             (u16_le_bytes w1).getD 0 0, (u16_le_bytes w1).getD 1 0]
        | Val.valU32 v =>
            [(u32_le_bytes v).getD 0 0, (u32_le_bytes v).getD 1 0,
             (u32_le_bytes v).getD 2 0, (u32_le_bytes v).getD 3 0])
    ++ [c.last]

structure HantekCommandBuilder where
  idx : Option Nat
  boh : Option Nat
  func : Option Nat
  cmd : Option Nat
  val : Option Val
  last : Option Nat

deriving instance DecidableEq for HantekCommandBuilder

def HantekCommandBuilder.new : HantekCommandBuilder :=
  ⟨none, none, none, none, none, none⟩

def HantekCommandBuilder.set_idx (b : HantekCommandBuilder) (idx : Nat) : HantekCommandBuilder :=
  { b with idx := some idx }

def HantekCommandBuilder.set_boh (b : HantekCommandBuilder) (boh : Nat) : HantekCommandBuilder :=
  { b with boh := some boh }

def HantekCommandBuilder.set_func (b : HantekCommandBuilder) (func : Nat) : HantekCommandBuilder :=
  { b with func := some func }

def HantekCommandBuilder.set_cmd (b : HantekCommandBuilder) (cmd : Nat) : HantekCommandBuilder :=
  { b with cmd := some cmd }

def HantekCommandBuilder.set_val_u8 (b : HantekCommandBuilder) (v0 v1 v2 v3 : Nat) :
    HantekCommandBuilder :=
  { b with val := some (Val.valU8 v0 v1 v2 v3) }

def HantekCommandBuilder.set_val0 (b : HantekCommandBuilder) (v0 : Nat) : HantekCommandBuilder :=
  b.set_val_u8 v0 0 0 0

def HantekCommandBuilder.set_val_u32 (b : HantekCommandBuilder) (val : Nat) :
    HantekCommandBuilder :=
  { b with val := some (Val.valU32 val) }

def HantekCommandBuilder.set_val_u16 (b : HantekCommandBuilder) (val0 val1 : Nat) :
    HantekCommandBuilder :=
  { b with val := some (Val.valU16 val0 val1) }

def HantekCommandBuilder.set_last (b : HantekCommandBuilder) (last : Nat) : HantekCommandBuilder :=
  { b with last := some last }

/- build(): each .expect(...) panics when its field is None; the panic is
   modeled as Option.none. -/
def HantekCommandBuilder.build (b : HantekCommandBuilder) : Option HantekCommand :=
  match b.idx, b.boh, b.func, b.cmd, b.val, b.last with
  | some idx, some boh, some func, some cmd, some val, some last =>
      some ⟨idx, boh, func, cmd, val, last⟩
  | _, _, _, _, _, _ => none

/- ===================== the f32 model ==================================== -/

inductive F32 where
  | num : ℚ → F32
  | posInf : F32
  | negInf : F32
  | nan : F32

deriving instance DecidableEq for F32

def F32.is_nan : F32 → Bool
  | .nan => true
  | _ => false

def F32.is_infinite : F32 → Bool
  | .posInf => true
  | .negInf => true
  | _ => false

def F32.is_finite : F32 → Bool
  | .num _ => true
  | _ => false

def F32.sub : F32 → F32 → F32
  | .nan, _ => .nan
  | _, .nan => .nan
  | .num a, .num b => .num (a - b)
  | .num _, .posInf => .negInf
  | .num _, .negInf => .posInf
  | .posInf, .posInf => .nan
  | .posInf, _ => .posInf
  | .negInf, .negInf => .nan
  | .negInf, _ => .negInf

def F32.mul : F32 → F32 → F32
  | .nan, _ => .nan
  | _, .nan => .nan
  | .num a, .num b => .num (a * b)
  | .num a, .posInf => if 0 < a then .posInf else if a < 0 then .negInf else .nan
  | .num a, .negInf => if 0 < a then .negInf else if a < 0 then .posInf else .nan
  | .posInf, .num a => if 0 < a then .posInf else if a < 0 then .negInf else .nan
  | .negInf, .num a => if 0 < a then .negInf else if a < 0 then .posInf else .nan
  | .posInf, .posInf => .posInf
  | .posInf, .negInf => .negInf
  | .negInf, .posInf => .negInf
  | .negInf, .negInf => .posInf

def F32.div : F32 → F32 → F32
  | .nan, _ => .nan
  | _, .nan => .nan
  | .num a, .num b =>
      if b = 0 then (if a = 0 then .nan else if 0 < a then .posInf else .negInf)
      else .num (a / b)
  | .num _, .posInf => .num 0
  | .num _, .negInf => .num 0
  | .posInf, .num b => if 0 ≤ b then .posInf else .negInf
  | .negInf, .num b => if 0 ≤ b then .negInf else .posInf
  | .posInf, _ => .nan
  | .negInf, _ => .nan

/- f32 comparison <= : false whenever either side is NaN. -/
def F32.le : F32 → F32 → Bool
  | .nan, _ => false
  | _, .nan => false
  | .num a, .num b => decide (a ≤ b)
  | .negInf, _ => true
  | _, .posInf => true
  | .posInf, _ => false
  | .num _, .negInf => false

/- f32 comparison == 0.0 : false for NaN, true for both signed zeros. -/
def F32.eqZero : F32 → Bool
  | .num a => decide (a = 0)
  | _ => false

/- Rust f32::round: round half away from zero. -/
def rustRound (q : ℚ) : ℤ := if q < 0 then -(round (-q)) else round q

def F32.fround : F32 → F32
  | .num q => .num ((rustRound q : ℤ) : ℚ)
  | x => x

/- Rust saturating cast f32 -> u8 (`as u8`): NaN to 0, truncate toward zero,
   clamp into 0..=255.  For q < 0 the floor is negative and Int.toNat gives 0,
   which coincides with the saturating behavior on negatives. -/
def F32.toU8 : F32 → Nat
  | .num q => min 255 (Int.toNat ⌊q⌋)
  | .posInf => 255
  | .negInf => 0
  | .nan => 0

/- Rust saturating cast f32 -> u32 (`as u32`). -/
def F32.toU32 : F32 → Nat
  | .num q => min 4294967295 (Int.toNat ⌊q⌋)
  | .posInf => 4294967295
  | .negInf => 0
  | .nan => 0

/- ===================== device/cfg.rs : Adjustment ======================= -/

structure Adjustment where
  upper : F32
  lower : F32
  step : F32
  page : F32

deriving instance DecidableEq for Adjustment

/- Adjustment::new panics (here: none) when upper <= lower, step == 0.0 or
   page == 0.0; all three tests use f32 semantics (false on NaN). -/
def Adjustment.new (upper lower step page : F32) : Option Adjustment :=
  if upper.le lower then none
  else if step.eqZero then none
  else if page.eqZero then none
  else some ⟨upper, lower, step, page⟩

def Adjustment.are_limits_sane (a : Adjustment) : Bool :=
  a.upper.is_finite && !a.upper.is_nan && a.lower.is_finite && !a.lower.is_nan

def Adjustment.limits_are_zero (a : Adjustment) : Bool :=
  a.upper.eqZero && a.lower.eqZero

/- ===================== device/cfg.rs : enumerations ===================== -/

inductive DeviceFunction where
  | Scope | AWG | DMM

deriving instance DecidableEq for DeviceFunction

inductive RunningStatus where
  | Start | Stop

deriving instance DecidableEq for RunningStatus

inductive Coupling where
  | AC | DC | Ground

deriving instance DecidableEq for Coupling

inductive Probe where
  | X1 | X10 | X100 | X1000

deriving instance DecidableEq for Probe

inductive Scale where
  | mv10 | mv20 | mv50 | mv100 | mv200 | mv500 | v1 | v2 | v5 | v10

deriving instance DecidableEq for Scale

/- Scale::raw_value, in volts. -/
def Scale.raw_value : Scale → ℚ
  | .mv10 => 1 / 100
  | .mv20 => 2 / 100
  | .mv50 => 5 / 100
  | .mv100 => 1 / 10
  | .mv200 => 2 / 10
  | .mv500 => 5 / 10
  | .v1 => 1
  | .v2 => 2
  | .v5 => 5
  | .v10 => 10

/- The SCOPE_VAL_SCALE_* constant selected for a scale in set_channel_scale. -/
def Scale.scope_val : Scale → Nat
  | .mv10 => 0
  | .mv20 => 1
  | .mv50 => 2
  | .mv100 => 3
  | .mv200 => 4
  | .mv500 => 5
  | .v1 => 6
  | .v2 => 7
  | .v5 => 8
  | .v10 => 9

inductive TimeScale where
  | ns5 | ns10 | ns20 | ns50 | ns100 | ns200 | ns500
  | us1 | us2 | us5 | us10 | us20 | us50 | us100 | us200 | us500
  | ms1 | ms2 | ms5 | ms10 | ms20 | ms50 | ms100 | ms200 | ms500
  | s1 | s2 | s5 | s10 | s20 | s50 | s100 | s200 | s500

deriving instance DecidableEq for TimeScale

inductive TriggerSlope where
  | Rising | Falling | Both

deriving instance DecidableEq for TriggerSlope

inductive TriggerMode where
  | Auto | Normal | Single

deriving instance DecidableEq for TriggerMode

inductive AwgType where
  | Square | Ramp | Sin | Trap | Arb1 | Arb2 | Arb3 | Arb4

deriving instance DecidableEq for AwgType

structure TrapDuty where
  high : F32
  low : F32
  rise : F32

deriving instance DecidableEq for TrapDuty

/- ===================== device/cfg.rs : HantekConfig ===================== -/

structure HantekConfig where
  timeout : Nat
  device_function : Option DeviceFunction
  enabled_channels : List (Option Bool)
  channel_coupling : List (Option Coupling)
  channel_probe : List (Option Probe)
  channel_scale : List (Option Scale)
  channel_offset : List (Option F32)
  channel_bandwidth_limit : List (Option Bool)
  channel_offset_adjustment : List (Option Adjustment)
  time_scale : Option TimeScale
  time_offset : Option F32
  time_offset_adjustment : Option Adjustment
  running_status : Option RunningStatus
  trigger_source_channel : Option Nat
  trigger_slope : Option TriggerSlope
  trigger_mode : Option TriggerMode
  trigger_level_adjustment : Option Adjustment
  trigger_level : Option F32
  awg_type : Option AwgType
  awg_frequency : Option F32
  awg_amplitude : Option F32
  awg_offset : Option F32
  awg_duty_square : Option F32
  awg_duty_ramp : Option F32
  awg_duty_trap : Option TrapDuty
  awg_running_status : Option RunningStatus

deriving instance DecidableEq for HantekConfig

def HantekConfig.new (timeout num_channels : Nat) : HantekConfig :=
  { timeout := timeout
    device_function := none
    enabled_channels := List.replicate num_channels none
    channel_coupling := List.replicate num_channels none
    channel_probe := List.replicate num_channels none
    channel_scale := List.replicate num_channels none
    channel_offset := List.replicate num_channels none
    channel_bandwidth_limit := List.replicate num_channels none
    channel_offset_adjustment := List.replicate num_channels none
    time_scale := none
    time_offset := none
    time_offset_adjustment := none
    running_status := none
    trigger_source_channel := none
    trigger_slope := none
    trigger_mode := none
    trigger_level_adjustment := none
    trigger_level := none
    awg_type := none
    awg_frequency := none
    awg_amplitude := none
    awg_offset := none
    awg_duty_square := none
    awg_duty_ramp := none
    awg_duty_trap := none
    awg_running_status := none }

/- get_internal_channel_no: channel_no - 1, panicking (none) when out of
   range; the range test is against enabled_channels.len() as in the source. -/
def HantekConfig.get_internal_channel_no (cfg : HantekConfig) (channel_no : Nat) : Option Nat :=
  if channel_no - 1 < cfg.enabled_channels.length then some (channel_no - 1) else none

def HantekConfig.set_channel_scale (cfg : HantekConfig) (channel_no : Nat) (scale : Scale) :
    Option HantekConfig :=
  (cfg.get_internal_channel_no channel_no).map fun i =>
    { cfg with channel_scale := cfg.channel_scale.set i (some scale) }

def HantekConfig.get_channel_scale (cfg : HantekConfig) (channel_no : Nat) :
    Option (Option Scale) :=
  (cfg.get_internal_channel_no channel_no).map fun i => cfg.channel_scale.getD i none

def HantekConfig.set_channel_offset (cfg : HantekConfig) (channel_no : Nat) (offset : F32) :
    Option HantekConfig :=
  (cfg.get_internal_channel_no channel_no).map fun i =>
    { cfg with channel_offset := cfg.channel_offset.set i (some offset) }

def HantekConfig.set_channel_adjustment (cfg : HantekConfig) (channel_no : Nat)
    (upper lower step page : F32) : Option HantekConfig :=
  (cfg.get_internal_channel_no channel_no).bind fun i =>
    (Adjustment.new upper lower step page).map fun adj =>
      { cfg with channel_offset_adjustment := cfg.channel_offset_adjustment.set i (some adj) }

def HantekConfig.get_channel_adjustment (cfg : HantekConfig) (channel_no : Nat) :
    Option (Option Adjustment) :=
  (cfg.get_internal_channel_no channel_no).map fun i =>
    cfg.channel_offset_adjustment.getD i none

def HantekConfig.set_time_offset (cfg : HantekConfig) (time_offset : F32) : HantekConfig :=
  { cfg with time_offset := some time_offset }

def HantekConfig.get_time_offset_adjustment (cfg : HantekConfig) : Option Adjustment :=
  cfg.time_offset_adjustment

def HantekConfig.set_time_offset_adjustment (cfg : HantekConfig)
    (upper lower step page : F32) : Option HantekConfig :=
  (Adjustment.new upper lower step page).map fun adj =>
    { cfg with time_offset_adjustment := some adj }

def HantekConfig.set_trigger_level (cfg : HantekConfig) (trigger_level : F32) : HantekConfig :=
  { cfg with trigger_level := some trigger_level }

def HantekConfig.get_trigger_level_adjustment (cfg : HantekConfig) : Option Adjustment :=
  cfg.trigger_level_adjustment

def HantekConfig.set_trigger_level_adjustment (cfg : HantekConfig)
    (upper lower step page : F32) : Option HantekConfig :=
  (Adjustment.new upper lower step page).map fun adj =>
    { cfg with trigger_level_adjustment := some adj }

def HantekConfig.stop (cfg : HantekConfig) : HantekConfig :=
  { cfg with running_status := some RunningStatus.Stop }

def HantekConfig.awg_stop (cfg : HantekConfig) : HantekConfig :=
  { cfg with awg_running_status := some RunningStatus.Stop }

/- ===================== models/hantek2d42_codes.rs ======================= -/

def IDX : Nat := 0x00
def BOH : Nat := 0x0A

def FUNC_SCOPE_SETTING : Nat := 0x0000
def FUNC_SCOPE_CAPTURE : Nat := 0x0100
def FUNC_AWG_SETTING : Nat := 0x0002
def FUNC_SCREEN_SETTING : Nat := 0x0003

def SCOPE_SCALE_CH1 : Nat := 0x04
def SCOPE_OFFSET_CH1 : Nat := 0x05
def SCOPE_SCALE_CH2 : Nat := 0x0A
def SCOPE_OFFSET_CH2 : Nat := 0x0B
def SCOPE_OFFSET_TIME : Nat := 0x0F
def SCOPE_TRIGGER_LEVEL : Nat := 0x14
def SCOPE_START_RECV : Nat := 0x16
def AWG_START_STOP : Nat := 0x08

/- ===================== models/hantek2d42.rs : driver operations ========= -/

/- Result of one driver operation: its status, the shadow config afterwards
   (unchanged unless the operation succeeded), and the raw frames handed to
   the USB bulk-write endpoint, in order. -/

inductive OpStatus where
  | ok : OpStatus
  | err : OpStatus
  | fatal : OpStatus

deriving instance DecidableEq for OpStatus

structure OpOut where
  status : OpStatus
  cfg : HantekConfig
  writes : List (List Nat)

deriving instance DecidableEq for OpOut

/- The adjustment window set_channel_scale installs for a scale: the driver
   calls config.set_channel_adjustment(ch, 4*raw, -4*raw, 8*raw/200, raw). -/
def channelAdjustment (scale : Scale) : Adjustment :=
  ⟨F32.num (4 * scale.raw_value), F32.num (-(4 * scale.raw_value)),
   F32.num (8 * scale.raw_value / 200), F32.num scale.raw_value⟩

/- Hantek2D42::set_channel_scale.  writeOk is the transport oracle for the
   single bulk write.  assert_channel_no panics (fatal) outside {1,2}. -/
def Hantek2D42.set_channel_scale (writeOk : Bool) (cfg : HantekConfig)
    (channel_no : Nat) (scale : Scale) : OpOut :=
  if ¬ (channel_no = 1 ∨ channel_no = 2) then ⟨.fatal, cfg, []⟩
  else
    let cmd := intoRaw ⟨IDX, BOH, FUNC_SCOPE_SETTING,
        (if channel_no = 1 then SCOPE_SCALE_CH1 else SCOPE_SCALE_CH2),
        Val.valU8 scale.scope_val 0 0 0, 0⟩
    if writeOk then
      match cfg.set_channel_adjustment channel_no
          (F32.num (4 * scale.raw_value)) (F32.num (-(4 * scale.raw_value)))
          (F32.num (8 * scale.raw_value / 200)) (F32.num scale.raw_value) with
      | none => ⟨.fatal, cfg, [cmd]⟩
      | some cfg2 =>
        match cfg2.set_channel_scale channel_no scale with
        | none => ⟨.fatal, cfg, [cmd]⟩
        | some cfg3 => ⟨.ok, cfg3, [cmd]⟩
    else ⟨.err, cfg, [cmd]⟩

/- Hantek2D42::set_channel_offset_with_auto_adjustment.  The offset is
   validated (panic on NaN or infinite), the channel adjustment window is
   fetched and must be present, sane and not the zero window, then
   dev_offset = (offset - lower) * 200 / (upper - lower) is truncated to a
   byte by the `as u8` cast. -/
def Hantek2D42.set_channel_offset_with_auto_adjustment (writeOk : Bool) (cfg : HantekConfig)
    (channel_no : Nat) (offset : F32) : OpOut :=
  if ¬ (channel_no = 1 ∨ channel_no = 2) then ⟨.fatal, cfg, []⟩
  else if offset.is_nan || offset.is_infinite then ⟨.fatal, cfg, []⟩
  else
    match cfg.get_channel_adjustment channel_no with
    | none => ⟨.fatal, cfg, []⟩
    | some none => ⟨.err, cfg, []⟩
    | some (some adjustment) =>
      if (!adjustment.are_limits_sane) || adjustment.limits_are_zero then ⟨.err, cfg, []⟩
      else
        let dev_offset :=
          ((offset.sub adjustment.lower).mul (F32.num 200)).div
            (adjustment.upper.sub adjustment.lower)
        let cmd := intoRaw ⟨IDX, BOH, FUNC_SCOPE_SETTING,
            (if channel_no = 1 then SCOPE_OFFSET_CH1 else SCOPE_OFFSET_CH2),
            Val.valU8 dev_offset.toU8 0 0 0, 0⟩
        if writeOk then
          match cfg.set_channel_offset channel_no offset with
          | none => ⟨.fatal, cfg, [cmd]⟩
          | some cfg2 => ⟨.ok, cfg2, [cmd]⟩
        else ⟨.err, cfg, [cmd]⟩

/- Hantek2D42::set_time_offset_with_auto_adjustment.  dev_time_offset =
   round((time_offset - lower/15*6) * 15*2*25 / (upper - lower)) as u32. -/
def Hantek2D42.set_time_offset_with_auto_adjustment (writeOk : Bool) (cfg : HantekConfig)
    (time_offset : F32) : OpOut :=
  if time_offset.is_nan || time_offset.is_infinite then ⟨.fatal, cfg, []⟩
  else
    match cfg.get_time_offset_adjustment with
    | none => ⟨.err, cfg, []⟩
    | some adjustment =>
      if (!adjustment.are_limits_sane) || adjustment.limits_are_zero then ⟨.err, cfg, []⟩
      else
        let dev_time_offset :=
          (((time_offset.sub ((adjustment.lower.div (F32.num 15)).mul (F32.num 6))).mul
              (F32.num (15 * 2 * 25))).div
            (adjustment.upper.sub adjustment.lower)).fround
        let cmd := intoRaw ⟨IDX, BOH, FUNC_SCOPE_SETTING, SCOPE_OFFSET_TIME,
            Val.valU32 dev_time_offset.toU32, 0⟩
        if writeOk then ⟨.ok, cfg.set_time_offset time_offset, [cmd]⟩
        else ⟨.err, cfg, [cmd]⟩

/- Hantek2D42::set_trigger_level_with_auto_adjustment.  Same conversion as
   the channel offset, against the trigger level window. -/
def Hantek2D42.set_trigger_level_with_auto_adjustment (writeOk : Bool) (cfg : HantekConfig)
    (trigger_level : F32) : OpOut :=
  if trigger_level.is_nan || trigger_level.is_infinite then ⟨.fatal, cfg, []⟩
  else
    match cfg.get_trigger_level_adjustment with
    | none => ⟨.err, cfg, []⟩
    | some adjustment =>
      if (!adjustment.are_limits_sane) || adjustment.limits_are_zero then ⟨.err, cfg, []⟩
      else
        let dev_trigger_level :=
          ((trigger_level.sub adjustment.lower).mul (F32.num 200)).div
            (adjustment.upper.sub adjustment.lower)
        let cmd := intoRaw ⟨IDX, BOH, FUNC_SCOPE_SETTING, SCOPE_TRIGGER_LEVEL,
            Val.valU8 dev_trigger_level.toU8 0 0 0, 0⟩
        if writeOk then ⟨.ok, cfg.set_trigger_level trigger_level, [cmd]⟩
        else ⟨.err, cfg, [cmd]⟩

/- Hantek2D42::awg_stop.  Sends func=AWG_SETTING, cmd=AWG_START_STOP, val0=0;
   on write success the source calls self.config.stop() - the SCOPE running
   status - and not self.config.awg_stop(). -/
def Hantek2D42.awg_stop (writeOk : Bool) (cfg : HantekConfig) : OpOut :=
  let cmd := intoRaw ⟨IDX, BOH, FUNC_AWG_SETTING, AWG_START_STOP, Val.valU8 0 0 0 0, 0⟩
  if writeOk then ⟨.ok, cfg.stop, [cmd]⟩
  else ⟨.err, cfg, [cmd]⟩

/- ===================== models/hantek2d42.rs : capture =================== -/

inductive CaptureLoopRes where
  | pairs : Nat → CaptureLoopRes
  | usbErr : CaptureLoopRes
  | panicked : CaptureLoopRes
  | fuelOut : CaptureLoopRes

deriving instance DecidableEq for CaptureLoopRes

/- The while loop of Hantek2D42::capture.  readRes gives, for the current
   count and the requested chunk length, the length actually returned by
   read_bulk; writeOk is the oracle for the per-chunk bulk write.  On
   success the result counts the write/read pairs performed.  Modeled
   panics: usize underflow in (num_samples * num_channels) - count, and the
   slice buffer[count..count + length] running past the buffer. -/
def captureLoop (readRes : Nat → Nat → Nat) (writeOk : Bool)
    (num_samples num_channels bufLen : Nat) : Nat → Nat → CaptureLoopRes
  | 0, _ => CaptureLoopRes.fuelOut
  | Nat.succ fuel, count =>
    if count < num_samples then
      if num_samples * num_channels < count then CaptureLoopRes.panicked
      else
        let length := if num_samples * num_channels - count < 64 then num_samples - count else 64
        if writeOk then
          if count + length ≤ bufLen then
            match captureLoop readRes writeOk num_samples num_channels bufLen fuel
                (count + readRes count length) with
            | CaptureLoopRes.pairs p => CaptureLoopRes.pairs (p + 1)
            | r => r
          else CaptureLoopRes.panicked
        else CaptureLoopRes.usbErr
    else CaptureLoopRes.pairs 0

inductive CaptureOut where
  | ok : List Nat → Nat → Nat → CaptureOut
  | usbErr : CaptureOut
  | panicked : CaptureOut
  | fuelOut : CaptureOut
  | badChannel : CaptureOut

deriving instance DecidableEq for CaptureOut

def liftLoop (cmd : List Nat) (bufLen : Nat) : CaptureLoopRes → CaptureOut
  | CaptureLoopRes.pairs p => CaptureOut.ok cmd p bufLen
  | CaptureLoopRes.usbErr => CaptureOut.usbErr
  | CaptureLoopRes.panicked => CaptureOut.panicked
  | CaptureLoopRes.fuelOut => CaptureOut.fuelOut

/- Hantek2D42::capture.  Channels outside {1,2} panic; num_channels counts
   whether 1 and 2 occur in the request; the START_RECV frame carries
   u16((num_samples * num_channels) / 2) twice (`as u16` wraps mod 65536);
   the buffer has num_samples * num_channels bytes.  On CaptureOut.ok the
   components are the frame written before every read, the number of
   write/read pairs, and the length of the returned buffer. -/
def Hantek2D42.capture (readRes : Nat → Nat → Nat) (writeOk : Bool)
    (channels : List Nat) (num_samples : Nat) (fuel : Nat) : CaptureOut :=
  if channels.all (fun c => c == 1 || c == 2) then
    let num_channels :=
      (if channels.contains 1 then 1 else 0) + (if channels.contains 2 then 1 else 0)
    let cmd := intoRaw ⟨IDX, BOH, FUNC_SCOPE_CAPTURE, SCOPE_START_RECV,
        Val.valU16 ((num_samples * num_channels / 2) % 65536)
          ((num_samples * num_channels / 2) % 65536), 0⟩
    let bufLen := num_samples * num_channels
    liftLoop cmd bufLen (captureLoop readRes writeOk num_samples num_channels bufLen fuel 0)
  else CaptureOut.badChannel

/- ===================== device/usb.rs : session ========================== -/

inductive UsbRes where
  | ok : UsbRes
  | interfaceAlreadyClaimed : Nat → UsbRes
  | usbInterfaceClaimError : List Nat → UsbRes
  | noInterfaceClaimed : UsbRes
  | writeError : UsbRes
  | releaseError : UsbRes
  | readLanguagesError : UsbRes

deriving instance DecidableEq for UsbRes

structure UsbState where
  claimed_interface : Option Nat

deriving instance DecidableEq for UsbState

/- The claim loop: try each interface of the configuration in order, keep
   the number of the first that claims, collect the numbers that errored. -/
def tryClaim (claimOk : Nat → Bool) : List Nat → Except (List Nat) Nat
  | [] => Except.error []
  | i :: rest =>
      if claimOk i then Except.ok i
      else
        match tryClaim claimOk rest with
        | Except.ok j => Except.ok j
        | Except.error es => Except.error (i :: es)

/- HantekUsbDevice::claim. -/
def HantekUsbDevice.claim (claimOk : Nat → Bool) (interfaces : List Nat) (st : UsbState) :
    UsbRes × UsbState :=
  match st.claimed_interface with
  | some already_claimed => (UsbRes.interfaceAlreadyClaimed already_claimed, st)
  | none =>
    match tryClaim claimOk interfaces with
    | Except.ok i => (UsbRes.ok, ⟨some i⟩)
    | Except.error es => (UsbRes.usbInterfaceClaimError es, st)

/- HantekUsbDevice::release.  The source releases the interface on the USB
   handle but never resets self.claimed_interface; the state is returned
   unchanged in every branch. -/
def HantekUsbDevice.release (releaseOk : Bool) (st : UsbState) : UsbRes × UsbState :=
  match st.claimed_interface with
  | none => (UsbRes.ok, st)
  | some _ => if releaseOk then (UsbRes.ok, st) else (UsbRes.releaseError, st)

/- HantekUsbDevice::write: requires a claimed interface. -/
def HantekUsbDevice.write (writeOk : Bool) (st : UsbState) : UsbRes × UsbState :=
  if st.claimed_interface.isNone then (UsbRes.noInterfaceClaimed, st)
  else if writeOk then (UsbRes.ok, st) else (UsbRes.writeError, st)

/- HantekUsbDevice::get_device_language: on a successful read_languages the
   negotiated language is languages.pop(), i.e. the LAST element of the
   reported list (Vec::pop removes from the back). -/
def HantekUsbDevice.get_device_language (readLanguages : Except Unit (List Nat)) :
    Except UsbRes (Option Nat) :=
  match readLanguages with
  | Except.ok languages => Except.ok languages.getLast?
  | Except.error _ => Except.error UsbRes.readLanguagesError

/- ===================== auxiliary predicates for the claims ============== -/

/- A window that makes an auto-adjusted setter bail: absent, or present with
   insane (non-finite) limits or the zero window. -/
def badWindow : Option Adjustment → Prop
  | none => True
  | some adj => adj.are_limits_sane = false ∨ adj.limits_are_zero = true

/- ===================== theorems ========================================= -/

/-- C1: for every fully-set command (idx, boh, func, cmd, val, last), the
serialization is exactly the 10 bytes [idx, boh, low(func), high(func), cmd,
payload bytes 5..8, last]: the four octets in order for the u8[4] variant,
[lo(w0), hi(w0), lo(w1), hi(w1)] for the two-word variant, and the 32-bit
word little-endian for the u32 variant. -/
theorem C1_serialize_fully_set_command
    (idx boh func cmd last a b c d w0 w1 v : Nat) :
    ((((((HantekCommandBuilder.new.set_idx idx).set_boh boh).set_func func).set_cmd
        cmd).set_val_u8 a b c d).set_last last).build.map intoRaw =
      some [idx, boh, func % 256, func / 256 % 256, cmd, a, b, c, d, last] ∧
    ((((((HantekCommandBuilder.new.set_idx idx).set_boh boh).set_func func).set_cmd
        cmd).set_val_u16 w0 w1).set_last last).build.map intoRaw =
      some [idx, boh, func % 256, func / 256 % 256, cmd,
        w0 % 256, w0 / 256 % 256, w1 % 256, w1 / 256 % 256, last] ∧
    ((((((HantekCommandBuilder.new.set_idx idx).set_boh boh).set_func func).set_cmd
        cmd).set_val_u32 v).set_last last).build.map intoRaw =
      some [idx, boh, func % 256, func / 256 % 256, cmd,
        v % 256, v / 256 % 256, v / 65536 % 256, v / 16777216 % 256, last] :=
  ⟨rfl, rfl, rfl⟩

/-- C8: a builder with at least one of the six fields never set fails to
build a command (the expect call panics, modeled as none). -/
theorem C8_unset_field_build_fails (b : HantekCommandBuilder)
    (h : b.idx = none ∨ b.boh = none ∨ b.func = none ∨ b.cmd = none ∨
      b.val = none ∨ b.last = none) :
    b.build = none := by
  obtain ⟨i, bo, f, c, v, l⟩ := b
  cases i <;> cases bo <;> cases f <;> cases c <;> cases v <;> cases l <;>
    simp_all [HantekCommandBuilder.build]

/-- Witness for C8 at the freshly created builder, whose fields are all
unset. -/
theorem C8_unset_field_build_fails_witness :
    (HantekCommandBuilder.new.idx = none ∨ HantekCommandBuilder.new.boh = none ∨
      HantekCommandBuilder.new.func = none ∨ HantekCommandBuilder.new.cmd = none ∨
      HantekCommandBuilder.new.val = none ∨ HantekCommandBuilder.new.last = none) ∧
    HantekCommandBuilder.new.build = none :=
  ⟨Or.inl rfl, C8_unset_field_build_fails HantekCommandBuilder.new (Or.inl rfl)⟩

/-- C6: on a fresh shadow configuration, a successful awg_stop leaves the AWG
running status ABSENT and instead sets the scope running status to Stop: the
driver calls config.stop() where config.awg_stop() was meant, so the claimed
postcondition (awg status present and Stop, scope status absent) fails. -/
theorem C6_awg_stop_sets_scope_status :
    (Hantek2D42.awg_stop true (HantekConfig.new 0 2)).status = OpStatus.ok ∧
    (Hantek2D42.awg_stop true (HantekConfig.new 0 2)).cfg.awg_running_status = none ∧
    (Hantek2D42.awg_stop true (HantekConfig.new 0 2)).cfg.running_status =
      some RunningStatus.Stop ∧
    (HantekConfig.new 0 2).awg_stop.awg_running_status = some RunningStatus.Stop := by
  refine ⟨rfl, rfl, rfl, rfl⟩

/-- C7: after a successful claim of interface 0 followed by a successful
release, the claimed-interface record is STILL present (release never clears
it), so a subsequent write succeeds instead of failing with
NoInterfaceClaimed, and a second claim fails with InterfaceAlreadyClaimed. -/
theorem C7_release_keeps_claimed_record :
    (HantekUsbDevice.claim (fun _ => true) [0] ⟨none⟩).1 = UsbRes.ok ∧
    (HantekUsbDevice.claim (fun _ => true) [0] ⟨none⟩).2.claimed_interface = some 0 ∧
    (HantekUsbDevice.release true
      (HantekUsbDevice.claim (fun _ => true) [0] ⟨none⟩).2).1 = UsbRes.ok ∧
    (HantekUsbDevice.release true
      (HantekUsbDevice.claim (fun _ => true) [0] ⟨none⟩).2).2.claimed_interface = some 0 ∧
    (HantekUsbDevice.write true
      (HantekUsbDevice.release true
        (HantekUsbDevice.claim (fun _ => true) [0] ⟨none⟩).2).2).1 = UsbRes.ok ∧
    (HantekUsbDevice.write true
      (HantekUsbDevice.release true
        (HantekUsbDevice.claim (fun _ => true) [0] ⟨none⟩).2).2).1 ≠
      UsbRes.noInterfaceClaimed ∧
    (HantekUsbDevice.claim (fun _ => true) [0]
      (HantekUsbDevice.release true
        (HantekUsbDevice.claim (fun _ => true) [0] ⟨none⟩).2).2).1 =
      UsbRes.interfaceAlreadyClaimed 0 := by
  refine ⟨rfl, rfl, rfl, rfl, rfl, by decide, rfl⟩

/-- C9: when the device reports more than one descriptor language the session
records the LAST language of the list, not the first: get_device_language
applies Vec::pop to the reported list.  With languages [0x0409, 0x0407] the
recorded language is 0x0407 while the head of the list is 0x0409. -/
theorem C9_language_pick_last :
    HantekUsbDevice.get_device_language (Except.ok [1033, 1031]) =
      Except.ok (some 1031) ∧
    [1033, 1031].head? = some 1033 ∧ (1031 : Nat) ≠ 1033 := by
  refine ⟨rfl, rfl, by decide⟩

/-- C5: for each auto-adjusted setter (channel offset, time offset, trigger
level), if the relevant adjustment window is absent, has non-finite bounds,
or is the zero window, the operation returns an error, writes no frame, and
leaves the shadow configuration unchanged. -/
theorem C5_bad_window_errors (writeOk : Bool) (cfg : HantekConfig) (n : Nat) (x : ℚ)
    (hn : n = 1 ∨ n = 2) :
    (∀ w, cfg.get_channel_adjustment n = some w → badWindow w →
      Hantek2D42.set_channel_offset_with_auto_adjustment writeOk cfg n (F32.num x) =
        ⟨OpStatus.err, cfg, []⟩) ∧
    (badWindow cfg.get_time_offset_adjustment →
      Hantek2D42.set_time_offset_with_auto_adjustment writeOk cfg (F32.num x) =
        ⟨OpStatus.err, cfg, []⟩) ∧
    (badWindow cfg.get_trigger_level_adjustment →
      Hantek2D42.set_trigger_level_with_auto_adjustment writeOk cfg (F32.num x) =
        ⟨OpStatus.err, cfg, []⟩) := by
  refine ⟨?_, ?_, ?_⟩
  · intro w hw hbad
    unfold Hantek2D42.set_channel_offset_with_auto_adjustment
    rw [if_neg (not_not_intro hn), hw]
    cases w with
    | none => rfl
    | some adj =>
      have hcond : (!adj.are_limits_sane || adj.limits_are_zero) = true := by
        rcases hbad with h | h <;> simp [h]
      simp [hcond, F32.is_nan, F32.is_infinite]
  · intro hbad
    unfold Hantek2D42.set_time_offset_with_auto_adjustment
    cases hw : cfg.get_time_offset_adjustment with
    | none => simp [F32.is_nan, F32.is_infinite]
    | some adj =>
      rw [hw] at hbad
      have hcond : (!adj.are_limits_sane || adj.limits_are_zero) = true := by
        rcases hbad with h | h <;> simp [h]
      simp [hcond, F32.is_nan, F32.is_infinite]
  · intro hbad
    unfold Hantek2D42.set_trigger_level_with_auto_adjustment
    cases hw : cfg.get_trigger_level_adjustment with
    | none => simp [F32.is_nan, F32.is_infinite]
    | some adj =>
      rw [hw] at hbad
      have hcond : (!adj.are_limits_sane || adj.limits_are_zero) = true := by
        rcases hbad with h | h <;> simp [h]
      simp [hcond, F32.is_nan, F32.is_infinite]

/-- Witness for C5 on a freshly opened two-channel configuration, in which
all three adjustment windows are absent. -/
theorem C5_bad_window_errors_witness :
    ((1 : Nat) = 1 ∨ (1 : Nat) = 2) ∧
    (HantekConfig.new 0 2).get_channel_adjustment 1 = some none ∧
    badWindow (none : Option Adjustment) ∧
    badWindow (HantekConfig.new 0 2).get_time_offset_adjustment ∧
    badWindow (HantekConfig.new 0 2).get_trigger_level_adjustment ∧
    Hantek2D42.set_channel_offset_with_auto_adjustment true (HantekConfig.new 0 2) 1
      (F32.num 0) = ⟨OpStatus.err, HantekConfig.new 0 2, []⟩ ∧
    Hantek2D42.set_time_offset_with_auto_adjustment true (HantekConfig.new 0 2)
      (F32.num 0) = ⟨OpStatus.err, HantekConfig.new 0 2, []⟩ ∧
    Hantek2D42.set_trigger_level_with_auto_adjustment true (HantekConfig.new 0 2)
      (F32.num 0) = ⟨OpStatus.err, HantekConfig.new 0 2, []⟩ :=
  ⟨Or.inl rfl, rfl, trivial, trivial, trivial,
    (C5_bad_window_errors true (HantekConfig.new 0 2) 1 0 (Or.inl rfl)).1 none rfl trivial,
    (C5_bad_window_errors true (HantekConfig.new 0 2) 1 0 (Or.inl rfl)).2.1 trivial,
    (C5_bad_window_errors true (HantekConfig.new 0 2) 1 0 (Or.inl rfl)).2.2 trivial⟩

/- One unfolding step of the capture loop, specialized to the oracle in which
every bulk read returns the requested length and every write succeeds. -/
theorem captureLoop_succ_ideal (num_samples num_channels bufLen fuel count : Nat) :
    captureLoop (fun _ r => r) true num_samples num_channels bufLen (fuel + 1) count =
      (if count < num_samples then
        if num_samples * num_channels < count then CaptureLoopRes.panicked
        else
          if count + (if num_samples * num_channels - count < 64
              then num_samples - count else 64) ≤ bufLen then
            match captureLoop (fun _ r => r) true num_samples num_channels bufLen fuel
                (count + (if num_samples * num_channels - count < 64
                  then num_samples - count else 64)) with
            | CaptureLoopRes.pairs p => CaptureLoopRes.pairs (p + 1)
            | r => r
          else CaptureLoopRes.panicked
      else CaptureLoopRes.pairs 0) := rfl

/-- C10: capture with an empty channel list and any positive num_samples
panics: the buffer is allocated with num_samples * 0 = 0 bytes, but the first
loop iteration computes a chunk length of num_samples and slices
buffer[0..num_samples], which is out of range; in particular no empty buffer
is returned. -/
theorem C10_capture_empty_channels_panics (readRes : Nat → Nat → Nat) (N fuel : Nat)
    (hN : 1 ≤ N) (hfuel : 1 ≤ fuel) :
    Hantek2D42.capture readRes true [] N fuel = CaptureOut.panicked := by
  obtain ⟨f, rfl⟩ : ∃ f, fuel = f + 1 := ⟨fuel - 1, by omega⟩
  have hcap : Hantek2D42.capture readRes true [] N (f + 1) =
      liftLoop (intoRaw ⟨IDX, BOH, FUNC_SCOPE_CAPTURE, SCOPE_START_RECV,
        Val.valU16 ((N * 0 / 2) % 65536) ((N * 0 / 2) % 65536), 0⟩) (N * 0)
        (captureLoop readRes true N 0 (N * 0) (f + 1) 0) := rfl
  have hloop : captureLoop readRes true N 0 0 (f + 1) 0 = CaptureLoopRes.panicked := by
    have hbody : captureLoop readRes true N 0 0 (f + 1) 0 =
        (if 0 < N then
          if N * 0 < 0 then CaptureLoopRes.panicked
          else
            if 0 + (if N * 0 - 0 < 64 then N - 0 else 64) ≤ 0 then
              match captureLoop readRes true N 0 0 f
                  (0 + readRes 0 (if N * 0 - 0 < 64 then N - 0 else 64)) with
              | CaptureLoopRes.pairs p => CaptureLoopRes.pairs (p + 1)
              | r => r
            else CaptureLoopRes.panicked
        else CaptureLoopRes.pairs 0) := rfl
    rw [hbody, if_pos (show 0 < N from hN), if_neg (show ¬ N * 0 < 0 by omega)]
    rw [if_neg]
    simp only [Nat.mul_zero, Nat.sub_zero, Nat.zero_add]
    rw [if_pos (show 0 - 0 < 64 by omega)]
    omega
  rw [hcap]
  simp only [Nat.mul_zero, Nat.zero_div, Nat.zero_mod]
  rw [hloop]
  rfl

/- Witness for C10 at num_samples 5 and fuel 1. -/
theorem C10_capture_empty_channels_panics_witness :
    (1 ≤ 5 ∧ 1 ≤ 1) ∧ Hantek2D42.capture (fun _ r => r) true [] 5 1 = CaptureOut.panicked :=
  ⟨⟨by omega, by omega⟩,
    C10_capture_empty_channels_panics (fun _ r => r) 5 1 (by omega) (by omega)⟩

/- Ceiling-division helpers for the chunk count (N + 63) / 64. -/
theorem ceil64_eq_one (m : Nat) (h1 : 1 ≤ m) (h2 : m ≤ 64) : (m + 63) / 64 = 1 := by
  have hm : m + 63 = (m - 1) + 64 := by omega
  rw [hm, Nat.add_div_right _ (by norm_num), Nat.div_eq_of_lt (by omega)]

theorem ceil64_step (m : Nat) (h : 64 < m) : (m + 63) / 64 = (m - 64 + 63) / 64 + 1 := by
  have hm : m + 63 = (m - 64 + 63) + 64 := by omega
  rw [hm, Nat.add_div_right _ (by norm_num)]

/- Invariant of the capture loop for two active channels under the ideal
oracle: starting at a multiple of 64 (or past the end), with enough fuel, it
finishes with exactly one write/read pair per 64-byte chunk of the remaining
num_samples - count. -/
theorem captureLoop_pairs (N : Nat) :
    ∀ fuel count, (count % 64 = 0 ∨ N ≤ count) → N - count < fuel →
      captureLoop (fun _ r => r) true N 2 (N * 2) fuel count =
        CaptureLoopRes.pairs ((N - count + 63) / 64) := by
  intro fuel
  induction fuel with
  | zero => intro count _ hf; exact absurd hf (by omega)
  | succ f ih =>
    intro count hdisj hf
    rw [captureLoop_succ_ideal]
    by_cases hc : count < N
    · rw [if_pos hc, if_neg (show ¬ N * 2 < count by omega)]
      have hmod : count % 64 = 0 := by
        rcases hdisj with h | h
        · exact h
        · omega
      by_cases hlen : N * 2 - count < 64
      · have hL : (if N * 2 - count < 64 then N - count else 64) = N - count := if_pos hlen
        rw [hL]
        have hce : count + (N - count) = N := by omega
        rw [hce, if_pos (show N ≤ N * 2 by omega)]
        rw [ih N (Or.inr le_rfl) (by omega)]
        show CaptureLoopRes.pairs ((N - N + 63) / 64 + 1) =
          CaptureLoopRes.pairs ((N - count + 63) / 64)
        rw [Nat.sub_self, ceil64_eq_one (N - count) (by omega) (by omega)]
      · have hL : (if N * 2 - count < 64 then N - count else 64) = 64 := if_neg hlen
        rw [hL]
        rw [if_pos (show count + 64 ≤ N * 2 by omega)]
        rw [ih (count + 64) (Or.inl (by omega)) (by omega)]
        by_cases hm : N - count ≤ 64
        · have h1 : N - (count + 64) = 0 := by omega
          rw [h1]
          show CaptureLoopRes.pairs ((0 + 63) / 64 + 1) =
            CaptureLoopRes.pairs ((N - count + 63) / 64)
          rw [ceil64_eq_one (N - count) (by omega) hm]
        · have h2 : N - (count + 64) = N - count - 64 := by omega
          rw [h2]
          show CaptureLoopRes.pairs ((N - count - 64 + 63) / 64 + 1) =
            CaptureLoopRes.pairs ((N - count + 63) / 64)
          rw [← ceil64_step (N - count) (by omega)]
    · rw [if_neg hc]
      have h0 : N - count = 0 := by omega
      rw [h0]

/- Byte-extraction helpers for the u16 wrap in the capture frame. -/
theorem u16wrap_lo (n : Nat) : n % 65536 % 256 = n % 256 :=
  Nat.mod_mod_of_dvd n (by norm_num)

theorem u16wrap_hi (n : Nat) : n % 65536 / 256 % 256 = n / 256 % 256 := by
  have h : (65536 : Nat) = 256 * 256 := by norm_num
  rw [h, Nat.mod_mul_right_div_self]
  exact Nat.mod_mod_of_dvd _ dvd_rfl

/-- C2: capture with channels [1, 2] and N >= 1 samples, when every bulk read
returns the requested chunk length and every write succeeds, writes the
frame func=0x0100, cmd=0x16 with payload u16(N), u16(N) before every read,
performs exactly ceil(N/64) write/read pairs, and returns a buffer of
length 2N. -/
theorem C2_capture_two_channels (N : Nat) (h : 1 ≤ N) :
    Hantek2D42.capture (fun _ r => r) true [1, 2] N (N + 1) =
      CaptureOut.ok [0, 10, 0, 1, 22, N % 256, N / 256 % 256, N % 256, N / 256 % 256, 0]
        ((N + 63) / 64) (2 * N) := by
  have hcap : Hantek2D42.capture (fun _ r => r) true [1, 2] N (N + 1) =
      liftLoop (intoRaw ⟨IDX, BOH, FUNC_SCOPE_CAPTURE, SCOPE_START_RECV,
          Val.valU16 ((N * 2 / 2) % 65536) ((N * 2 / 2) % 65536), 0⟩) (N * 2)
        (captureLoop (fun _ r => r) true N 2 (N * 2) (N + 1) 0) := rfl
  rw [hcap, captureLoop_pairs N (N + 1) 0 (Or.inl rfl) (by omega)]
  have h22 : N * 2 / 2 = N := Nat.mul_div_cancel N (by norm_num)
  simp only [liftLoop, Nat.sub_zero, h22]
  congr 1
  · simp only [intoRaw, u16_be_bytes, u16_le_bytes, IDX, BOH, FUNC_SCOPE_CAPTURE,
      SCOPE_START_RECV, List.getD, u16wrap_lo, u16wrap_hi]
    norm_num [u16wrap_lo, u16wrap_hi]
  · omega

/- Witness for C2 at N = 100: two write/read pairs and a 200-byte buffer. -/
theorem C2_capture_two_channels_witness :
    1 ≤ 100 ∧
    Hantek2D42.capture (fun _ r => r) true [1, 2] 100 101 =
      CaptureOut.ok [0, 10, 0, 1, 22, 100 % 256, 100 / 256 % 256, 100 % 256,
        100 / 256 % 256, 0] ((100 + 63) / 64) (2 * 100) :=
  ⟨by omega, C2_capture_two_channels 100 (by omega)⟩

/- Small list and positivity helpers. -/
theorem list_len_two {α : Type} (l : List α) (h : l.length = 2) : ∃ x y, l = [x, y] := by
  rcases l with _ | ⟨x, la⟩
  · simp at h
  · rcases la with _ | ⟨y, lb⟩
    · simp at h
    · rcases lb with _ | ⟨z, lc⟩
      · exact ⟨x, y, rfl⟩
      · simp at h

theorem Scale.raw_value_pos (s : Scale) : 0 < s.raw_value := by
  cases s <;> norm_num [Scale.raw_value]

theorem pair_set_zero {α : Type} (x y v : α) : [x, y].set 0 v = [v, y] := rfl

theorem pair_set_one {α : Type} (x y v : α) : [x, y].set 1 v = [x, v] := rfl

theorem pair_getD_zero {α : Type} (x y d : α) : [x, y].getD 0 d = x := rfl

theorem pair_getD_one {α : Type} (x y d : α) : [x, y].getD 1 d = y := rfl

/- Adjustment::new succeeds on the window derived from a channel scale and
yields exactly channelAdjustment. -/
theorem adjustment_new_channel (scale : Scale) :
    Adjustment.new (F32.num (4 * scale.raw_value)) (F32.num (-(4 * scale.raw_value)))
      (F32.num (8 * scale.raw_value / 200)) (F32.num scale.raw_value) =
      some (channelAdjustment scale) := by
  have hpos := Scale.raw_value_pos scale
  have hle : ¬ (F32.le (F32.num (4 * scale.raw_value))
      (F32.num (-(4 * scale.raw_value))) = true) := by
    simp [F32.le]
    linarith
  have hstep : ¬ (F32.eqZero (F32.num (8 * scale.raw_value / 200)) = true) := by
    simp only [F32.eqZero, decide_eq_true_eq]
    exact ne_of_gt (div_pos (by linarith) (by norm_num))
  have hpage : ¬ (F32.eqZero (F32.num scale.raw_value) = true) := by
    simp only [F32.eqZero, decide_eq_true_eq]
    exact ne_of_gt hpos
  unfold Adjustment.new
  rw [if_neg hle, if_neg hstep, if_neg hpage]
  rfl

/-- C4: for every channel n in {1, 2} and every Scale, after a successful
set_channel_scale(n, scale) the shadow's channel-n offset adjustment window
is present with lower = -4 * raw_value and upper = +4 * raw_value. -/
theorem C4_scale_installs_offset_window (cfg : HantekConfig) (n : Nat) (scale : Scale)
    (hn : n = 1 ∨ n = 2)
    (hec : cfg.enabled_channels.length = 2)
    (hadjlen : cfg.channel_offset_adjustment.length = 2) :
    (Hantek2D42.set_channel_scale true cfg n scale).status = OpStatus.ok ∧
    (Hantek2D42.set_channel_scale true cfg n scale).cfg.get_channel_adjustment n =
      some (some (channelAdjustment scale)) ∧
    (channelAdjustment scale).lower = F32.num (-(4 * scale.raw_value)) ∧
    (channelAdjustment scale).upper = F32.num (4 * scale.raw_value) := by
  have hnew := adjustment_new_channel scale
  obtain ⟨t0, df, ec, cc, cp, cs, co, cb, coa, ts0, to0, toa, rs, tsc, tsl0, tm0, tla,
    tl0, aty, afr, aam, aof, asq, arp, atr, ars⟩ := cfg
  dsimp only at hec hadjlen ⊢
  obtain ⟨e1, e2, rfl⟩ := list_len_two _ hec
  obtain ⟨a1, a2, rfl⟩ := list_len_two _ hadjlen
  rcases hn with rfl | rfl <;>
    simp [Hantek2D42.set_channel_scale, HantekConfig.set_channel_adjustment,
      HantekConfig.set_channel_scale, HantekConfig.get_internal_channel_no,
      HantekConfig.get_channel_adjustment, hnew, pair_set_zero, pair_set_one,
      pair_getD_zero, pair_getD_one, channelAdjustment]

/- Witness for C4 on a fresh two-channel configuration, channel 1, scale 1V. -/
theorem C4_scale_installs_offset_window_witness :
    ((1 : Nat) = 1 ∨ (1 : Nat) = 2) ∧
    (HantekConfig.new 0 2).enabled_channels.length = 2 ∧
    (HantekConfig.new 0 2).channel_offset_adjustment.length = 2 ∧
    ((Hantek2D42.set_channel_scale true (HantekConfig.new 0 2) 1 Scale.v1).status =
      OpStatus.ok ∧
    (Hantek2D42.set_channel_scale true (HantekConfig.new 0 2) 1
        Scale.v1).cfg.get_channel_adjustment 1 =
      some (some (channelAdjustment Scale.v1)) ∧
    (channelAdjustment Scale.v1).lower = F32.num (-(4 * Scale.raw_value Scale.v1)) ∧
    (channelAdjustment Scale.v1).upper = F32.num (4 * Scale.raw_value Scale.v1)) :=
  ⟨Or.inl rfl, rfl, rfl,
    C4_scale_installs_offset_window (HantekConfig.new 0 2) 1 Scale.v1 (Or.inl rfl) rfl rfl⟩

/- Finite-value arithmetic lemmas for the F32 model. -/
theorem F32.sub_num (a b : ℚ) : F32.sub (F32.num a) (F32.num b) = F32.num (a - b) := rfl

theorem F32.mul_num (a b : ℚ) : F32.mul (F32.num a) (F32.num b) = F32.num (a * b) := rfl

theorem F32.div_num (a b : ℚ) (hb : b ≠ 0) :
    F32.div (F32.num a) (F32.num b) = F32.num (a / b) := by
  show (if b = 0 then (if a = 0 then F32.nan else if 0 < a then F32.posInf else F32.negInf)
      else F32.num (a / b)) = F32.num (a / b)
  rw [if_neg hb]

/- Shared computation: the frame emitted by the channel-offset auto-adjusted
setter when the window installed by set_channel_scale is in place. -/
theorem offset_auto_writes (writeOk : Bool) (cfg : HantekConfig) (n : Nat) (x : ℚ)
    (scale : Scale)
    (hn : n = 1 ∨ n = 2)
    (hadj : cfg.get_channel_adjustment n = some (some (channelAdjustment scale)))
    (hx : |x| ≤ 4 * scale.raw_value) :
    (Hantek2D42.set_channel_offset_with_auto_adjustment writeOk cfg n (F32.num x)).writes =
      [[IDX, BOH, 0, 0, if n = 1 then SCOPE_OFFSET_CH1 else SCOPE_OFFSET_CH2,
        Int.toNat ⌊(x + 4 * scale.raw_value) * 200 / (8 * scale.raw_value)⌋ % 256,
        0, 0, 0, 0]] := by
  have hpos := Scale.raw_value_pos scale
  have hx1 := (abs_le.mp hx).1
  have hx2 := (abs_le.mp hx).2
  have h8 : (0 : ℚ) < 8 * scale.raw_value := by linarith
  have h4 : (4 * scale.raw_value : ℚ) ≠ 0 := ne_of_gt (by linarith)
  have hsane : (channelAdjustment scale).are_limits_sane = true := rfl
  have hzero : (channelAdjustment scale).limits_are_zero = false := by
    simp only [Adjustment.limits_are_zero, channelAdjustment, F32.eqZero]
    rw [decide_eq_false h4]
    rfl
  have hcond : ((!(channelAdjustment scale).are_limits_sane) ||
      (channelAdjustment scale).limits_are_zero) = false := by
    rw [hsane, hzero]
    rfl
  unfold Hantek2D42.set_channel_offset_with_auto_adjustment
  rw [if_neg (not_not_intro hn)]
  rw [show ((F32.num x).is_nan || (F32.num x).is_infinite) = false from rfl]
  rw [if_neg Bool.false_ne_true, hadj]
  simp only [hcond]
  rw [if_neg Bool.false_ne_true]
  rw [show (channelAdjustment scale).lower = F32.num (-(4 * scale.raw_value)) from rfl]
  rw [show (channelAdjustment scale).upper = F32.num (4 * scale.raw_value) from rfl]
  rw [F32.sub_num, F32.sub_num, F32.mul_num]
  rw [show x - -(4 * scale.raw_value) = x + 4 * scale.raw_value from by ring]
  rw [show (4 : ℚ) * scale.raw_value - -(4 * scale.raw_value) = 8 * scale.raw_value
    from by ring]
  rw [F32.div_num _ _ (ne_of_gt h8)]
  have hq0 : 0 ≤ (x + 4 * scale.raw_value) * 200 / (8 * scale.raw_value) :=
    div_nonneg (by nlinarith) (le_of_lt h8)
  have hq200 : (x + 4 * scale.raw_value) * 200 / (8 * scale.raw_value) ≤ 200 := by
    rw [div_le_iff₀ h8]
    nlinarith
  have hfl0 : 0 ≤ ⌊(x + 4 * scale.raw_value) * 200 / (8 * scale.raw_value)⌋ :=
    Int.floor_nonneg.mpr hq0
  have hfl200 : ⌊(x + 4 * scale.raw_value) * 200 / (8 * scale.raw_value)⌋ ≤ 200 :=
    calc ⌊(x + 4 * scale.raw_value) * 200 / (8 * scale.raw_value)⌋
        ≤ ⌊(200 : ℚ)⌋ := Int.floor_le_floor hq200
      _ = 200 := by norm_num
  have htoU8 : F32.toU8 (F32.num ((x + 4 * scale.raw_value) * 200 / (8 * scale.raw_value))) =
      Int.toNat ⌊(x + 4 * scale.raw_value) * 200 / (8 * scale.raw_value)⌋ % 256 := by
    show min 255 (Int.toNat ⌊(x + 4 * scale.raw_value) * 200 / (8 * scale.raw_value)⌋) = _
    rw [Nat.mod_eq_of_lt (by omega), min_eq_right (by omega)]
  rw [htoU8]
  cases writeOk with
  | false =>
    rw [if_neg Bool.false_ne_true]
    simp [intoRaw, u16_be_bytes, List.getD, IDX, BOH, FUNC_SCOPE_SETTING]
  | true =>
    rw [if_pos rfl]
    cases hset : cfg.set_channel_offset n (F32.num x) with
    | none => simp [intoRaw, u16_be_bytes, List.getD, IDX, BOH, FUNC_SCOPE_SETTING]
    | some cfg2 => simp [intoRaw, u16_be_bytes, List.getD, IDX, BOH, FUNC_SCOPE_SETTING]


/-- C3 (amended): for channels n in {1, 2} and finite x with |x| <= 4s, where
the channel-n window is the one installed by set_channel_scale for a scale of
raw_value s, set_channel_offset_with_auto_adjustment(n, x) sends a frame
whose val0 byte is the TRUNCATION toward zero of (x + 4s) * 200 / (8s),
taken mod 256 - not the rounding to nearest that the original claim states:
the source has no .round() on this path, and the `as u8` cast truncates. -/
theorem C3_offset_byte_truncates (writeOk : Bool) (cfg : HantekConfig) (n : Nat) (x : ℚ)
    (scale : Scale)
    (hn : n = 1 ∨ n = 2)
    (hadj : cfg.get_channel_adjustment n = some (some (channelAdjustment scale)))
    (hx : |x| ≤ 4 * scale.raw_value) :
    (Hantek2D42.set_channel_offset_with_auto_adjustment writeOk cfg n (F32.num x)).writes =
      [[IDX, BOH, 0, 0, if n = 1 then SCOPE_OFFSET_CH1 else SCOPE_OFFSET_CH2,
        Int.toNat ⌊(x + 4 * scale.raw_value) * 200 / (8 * scale.raw_value)⌋ % 256,
        0, 0, 0, 0]] :=
  offset_auto_writes writeOk cfg n x scale hn hadj hx

/- Witness for C3 (amended) at channel 1, scale 1V, x = 1/2: the window
[-4, 4] gives (1/2 + 4) * 200 / 8 = 112.5, truncated to byte 112. -/
theorem C3_offset_byte_truncates_witness :
    ((1 : Nat) = 1 ∨ (1 : Nat) = 2) ∧
    ({ HantekConfig.new 0 2 with channel_offset_adjustment :=
        [some (channelAdjustment Scale.v1), none] } : HantekConfig).get_channel_adjustment 1 =
      some (some (channelAdjustment Scale.v1)) ∧
    |(1 : ℚ) / 2| ≤ 4 * Scale.raw_value Scale.v1 ∧
    (Hantek2D42.set_channel_offset_with_auto_adjustment true
        { HantekConfig.new 0 2 with channel_offset_adjustment :=
          [some (channelAdjustment Scale.v1), none] } 1 (F32.num (1 / 2))).writes =
      [[IDX, BOH, 0, 0, if (1 : Nat) = 1 then SCOPE_OFFSET_CH1 else SCOPE_OFFSET_CH2,
        Int.toNat ⌊((1 : ℚ) / 2 + 4 * Scale.raw_value Scale.v1) * 200 /
          (8 * Scale.raw_value Scale.v1)⌋ % 256, 0, 0, 0, 0]] := by
  have habs : |(1 : ℚ) / 2| ≤ 4 * Scale.raw_value Scale.v1 := by
    rw [abs_of_pos (by norm_num)]
    norm_num [Scale.raw_value]
  exact ⟨Or.inl rfl, rfl, habs,
    C3_offset_byte_truncates true _ 1 (1 / 2) Scale.v1 (Or.inl rfl) rfl habs⟩

/-- C3 counterexample: with the channel-1 window installed for scale 2V
(window [-8, 8]) and x = 1.0, the conversion gives (1 + 8) * 200 / 16 =
112.5; the code sends the truncated byte 112, while the claimed formula
round((x + 4s) * 200 / (8s)) mod 256 gives 113 (under rounding half away
from zero, i.e. Rust f32::round, and equally under rounding half up), so the
claim as stated is false at this input. -/
theorem C3_round_counterexample :
    (Hantek2D42.set_channel_offset_with_auto_adjustment true
        { HantekConfig.new 0 2 with channel_offset_adjustment :=
          [some (channelAdjustment Scale.v2), none] } 1 (F32.num 1)).writes =
      [[0, 10, 0, 0, 5, 112, 0, 0, 0, 0]] ∧
    Int.toNat (rustRound (((1 : ℚ) + 4 * 2) * 200 / (8 * 2))) % 256 = 113 ∧
    Int.toNat (round (((1 : ℚ) + 4 * 2) * 200 / (8 * 2))) % 256 = 113 ∧
    (Hantek2D42.set_channel_offset_with_auto_adjustment true
        { HantekConfig.new 0 2 with channel_offset_adjustment :=
          [some (channelAdjustment Scale.v2), none] } 1 (F32.num 1)).writes ≠
      [[0, 10, 0, 0, 5,
        Int.toNat (rustRound (((1 : ℚ) + 4 * 2) * 200 / (8 * 2))) % 256, 0, 0, 0, 0]] := by
  have habs : |(1 : ℚ)| ≤ 4 * Scale.raw_value Scale.v2 := by
    rw [abs_one]
    norm_num [Scale.raw_value]
  have hw := offset_auto_writes true
    { HantekConfig.new 0 2 with channel_offset_adjustment :=
      [some (channelAdjustment Scale.v2), none] } 1 1 Scale.v2 (Or.inl rfl) rfl habs
  have hbyte : Int.toNat ⌊((1 : ℚ) + 4 * Scale.raw_value Scale.v2) * 200 /
      (8 * Scale.raw_value Scale.v2)⌋ % 256 = 112 := by
    norm_num [Scale.raw_value]
    decide
  rw [hbyte] at hw
  have hw2 : (Hantek2D42.set_channel_offset_with_auto_adjustment true
      { HantekConfig.new 0 2 with channel_offset_adjustment :=
        [some (channelAdjustment Scale.v2), none] } 1 (F32.num 1)).writes =
      [[0, 10, 0, 0, 5, 112, 0, 0, 0, 0]] := by
    rw [hw]
    norm_num [IDX, BOH, SCOPE_OFFSET_CH1]
  have hround : Int.toNat (rustRound (((1 : ℚ) + 4 * 2) * 200 / (8 * 2))) % 256 = 113 := by
    have hval : ((1 : ℚ) + 4 * 2) * 200 / (8 * 2) = 225 / 2 := by norm_num
    rw [hval, rustRound, if_neg (by norm_num), round_eq]
    norm_num
    decide
  have hround2 : Int.toNat (round (((1 : ℚ) + 4 * 2) * 200 / (8 * 2))) % 256 = 113 := by
    have hval : ((1 : ℚ) + 4 * 2) * 200 / (8 * 2) = 225 / 2 := by norm_num
    rw [hval, round_eq]
    norm_num
    decide
  refine ⟨hw2, hround, hround2, ?_⟩
  rw [hw2, hround]
  decide
